import Mathlib

/-!
Verification development for the `aws-research-workshops` repository
(`notebooks/container/container-basic.ipynb` and
`notebooks/parallelcluster/config/config3-simple.yaml.ini`).

The notebook is embedded shallowly: shell command lines (both the `!`
lines of notebook cells and the generated `sratest.sh` script) become a
small shell AST with an executable semantics, the Python statements of
each code cell become a small Python AST, the ParallelCluster YAML
document becomes a configuration-tree value, and the `writetemplate`
cell magic's use of Python `str.format` becomes an executable formatter.
-/

/-- A token of a shell word: either literal text or a `$NAME` environment
variable reference. -/
inductive ShTok where
  | lit (s : String)
  | var (name : String)
deriving DecidableEq

/-- A shell word is a concatenation of tokens, e.g. `s3://$bucket` or
`$SRA_OUTPUT/$PACKAGE_NAME`. -/
abbrev ShWord := List ShTok

/-- A shell command: a simple command (a list of words), or an exit-code
conditioned chain `a && b` / `a || b`. -/
inductive ShCmd where
  | simple (words : List ShWord)
  | andThen (a b : ShCmd)
  | orElse (a b : ShCmd)
deriving DecidableEq

/-- A line of a shell script: shebang, comment, `set` option, or command. -/
inductive ShLine where
  | shebang (path : String)
  | comment (text : String)
  | setOpt (flag : String)
  | cmd (c : ShCmd)
deriving DecidableEq

/-- Expand one token under an environment-variable assignment. -/
def expandTok (env : String → String) : ShTok → String
  | ShTok.lit s => s
  | ShTok.var x => env x

/-- Words of the `prefetch $PACKAGE_NAME --output-directory /tmp` line of
`sratest.sh`. -/
def prefetchWords : List ShWord :=
  [[ShTok.lit "prefetch"], [ShTok.var "PACKAGE_NAME"],
   [ShTok.lit "--output-directory"], [ShTok.lit "/tmp"]]

/-- Words of the `fasterq-dump $PACKAGE_NAME -e 8` line of `sratest.sh`. -/
def fasterqWords : List ShWord :=
  [[ShTok.lit "fasterq-dump"], [ShTok.var "PACKAGE_NAME"],
   [ShTok.lit "-e"], [ShTok.lit "8"]]

/-- Words of the `aws s3 sync . $SRA_OUTPUT/$PACKAGE_NAME` line of
`sratest.sh`. -/
def syncWords : List ShWord :=
  [[ShTok.lit "aws"], [ShTok.lit "s3"], [ShTok.lit "sync"], [ShTok.lit "."],
   [ShTok.var "SRA_OUTPUT", ShTok.lit "/", ShTok.var "PACKAGE_NAME"]]

/-- The `fasterq-dump` command of `sratest.sh`. -/
def fasterqCmd : ShCmd := ShCmd.simple fasterqWords

/-- The `sratest.sh` script exactly as the notebook's `%%writetemplate
sratest.sh` cell writes it (the template contains no format fields, so the
written file is the template text itself). -/
def sratest_sh : List ShLine :=
  [ShLine.shebang "/bin/bash",
   ShLine.setOpt "-x",
   ShLine.comment "## Prefetch accession",
   ShLine.cmd (ShCmd.simple prefetchWords),
   ShLine.comment "## Perform conversion using 8 threads (more will lead to I/O issues)",
   ShLine.cmd fasterqCmd,
   ShLine.comment "## Upload results to S3 bucket",
   ShLine.cmd (ShCmd.simple syncWords)]

/-- Evaluate a shell command given an oracle assigning an exit code to each
simple command; returns the final exit code and the list of simple commands
actually started. `a && b` starts `b` only when `a` exits 0; `a || b`
starts `b` only when `a` exits nonzero. -/
def evalCmd (results : List ShWord → Int) : ShCmd → Int × List ShCmd
  | ShCmd.simple ws => (results ws, [ShCmd.simple ws])
  | ShCmd.andThen a b =>
      let ra := evalCmd results a
      if ra.1 = 0 then
        let rb := evalCmd results b
        (rb.1, ra.2 ++ rb.2)
      else ra
  | ShCmd.orElse a b =>
      let ra := evalCmd results a
      if ra.1 = 0 then ra
      else
        let rb := evalCmd results b
        (rb.1, ra.2 ++ rb.2)

/-- Run the lines of a script. The Bool argument is the `errexit` state
(`set -e`); when it is on, a failing command aborts the rest of the script.
`set -x` (tracing) does not alter control flow and is recorded only as the
line itself. Comments and the shebang execute nothing. -/
def runLines (results : List ShWord → Int) : Bool → List ShLine → List ShCmd
  | _, [] => []
  | e, ShLine.shebang _ :: ls => runLines results e ls
  | e, ShLine.comment _ :: ls => runLines results e ls
  | e, ShLine.setOpt f :: ls => runLines results (e || f = "-e") ls
  | e, ShLine.cmd c :: ls =>
      let r := evalCmd results c
      if e ∧ r.1 ≠ 0 then r.2 else r.2 ++ runLines results e ls

/-- Run a script from the initial shell state (`errexit` off, as bash
starts unless `set -e` is issued). -/
def runScript (results : List ShWord → Int) (s : List ShLine) : List ShCmd :=
  runLines results false s

/-- The lines of a script that are not comments. -/
def scriptSteps (s : List ShLine) : List ShLine :=
  s.filter (fun l => match l with | ShLine.comment _ => false | _ => true)

/-- The commands of a script, in order. -/
def scriptCmds : List ShLine → List ShCmd
  | [] => []
  | ShLine.cmd c :: ls => c :: scriptCmds ls
  | _ :: ls => scriptCmds ls

lemma runScript_sratest (results : List ShWord → Int) :
    runScript results sratest_sh =
      [ShCmd.simple prefetchWords, fasterqCmd, ShCmd.simple syncWords] := by
  simp [runScript, runLines, sratest_sh, evalCmd, fasterqCmd]

/-- C1: `sratest.sh` is a linear five-step shell pipeline (shebang,
`set -x`, `prefetch` of `$PACKAGE_NAME`, `fasterq-dump` of
`$PACKAGE_NAME`, `aws s3 sync . $SRA_OUTPUT/$PACKAGE_NAME`), whose
commands run unconditionally in that fixed order: for every assignment of
exit codes to the external tools, the executed trace is exactly the three
commands, once each, in order, so the script has no retry, caching, or
failure-recovery logic of its own around any step. -/
theorem sratest_linear_five_step_pipeline (results : List ShWord → Int) :
    scriptSteps sratest_sh =
      [ShLine.shebang "/bin/bash", ShLine.setOpt "-x",
       ShLine.cmd (ShCmd.simple prefetchWords), ShLine.cmd fasterqCmd,
       ShLine.cmd (ShCmd.simple syncWords)] ∧
    (scriptSteps sratest_sh).length = 5 ∧
    syncWords.getLast? =
      some [ShTok.var "SRA_OUTPUT", ShTok.lit "/", ShTok.var "PACKAGE_NAME"] ∧
    runScript results sratest_sh =
      [ShCmd.simple prefetchWords, fasterqCmd, ShCmd.simple syncWords] :=
  ⟨by decide, by decide, by decide, runScript_sratest results⟩

/-- C8: `sratest.sh` sets only `set -x`, never `set -e`, and checks no
exit code, so even when both the `prefetch` step and the `fasterq-dump`
step fail (exit nonzero), the final `aws s3 sync` command is still
executed. -/
theorem sratest_sync_runs_despite_failures (results : List ShWord → Int)
    (hp : results prefetchWords ≠ 0) (hf : results fasterqWords ≠ 0) :
    ShLine.setOpt "-e" ∉ sratest_sh ∧
    ShCmd.simple syncWords ∈ runScript results sratest_sh := by
  refine ⟨by decide, ?_⟩
  rw [runScript_sratest results]
  simp

/-- Witness for C8 at the concrete oracle under which every external
command fails with exit code 1: the sync command still appears in the
executed trace. -/
theorem sratest_sync_runs_despite_failures_witness :
    ShLine.setOpt "-e" ∉ sratest_sh ∧
    ShCmd.simple syncWords ∈ runScript (fun _ => (1 : Int)) sratest_sh :=
  sratest_sync_runs_despite_failures (fun _ => (1 : Int))
    (by decide) (by decide)

/-- A node of a declarative configuration document, as a template language
could contain it: plain data (scalars, sequences, mappings) or logic
(conditionals, loops, computed values). The ParallelCluster YAML consists
of data nodes only; the logic constructors exist so that their absence is
a meaningful statement. `${NAME}` placeholders are literal scalar text in
the document and are substituted by tooling outside this repository. -/
inductive ConfigNode where
  | str (s : String)
  | num (n : Nat)
  | bool (b : Bool)
  | seq (items : List ConfigNode)
  | map (entries : List (String × ConfigNode))
  | cond (test : String) (thenBranch elseBranch : ConfigNode)
  | loop (binder : String) (count : Nat) (body : ConfigNode)
  | computed (expr : String)

/-- Whether any node within depth `fuel` is a logic node (conditional,
loop, or computed value). Fuel 0 conservatively reports logic, so a
`false` answer is sound for the whole subtree it covers. -/
def nodeHasLogicFuel : Nat → ConfigNode → Bool
  | 0, _ => true
  | Nat.succ k, n =>
    match n with
    | ConfigNode.cond _ _ _ => true
    | ConfigNode.loop _ _ _ => true
    | ConfigNode.computed _ => true
    | ConfigNode.seq xs => xs.any (nodeHasLogicFuel k)
    | ConfigNode.map es => es.any (fun e => nodeHasLogicFuel k e.2)
    | _ => false

/-- Whether a document contains any logic node; depth bound 32 exceeds the
nesting depth (at most 8) of `config3-simple.yaml.ini`. -/
def nodeHasLogic (n : ConfigNode) : Bool := nodeHasLogicFuel 32 n

/-- `notebooks/parallelcluster/config/config3-simple.yaml.ini`, embedded
node for node in document order. -/
def config3_simple : ConfigNode :=
  ConfigNode.map
    [("Region", ConfigNode.str "$\x7bREGION\x7d"),
     ("Image", ConfigNode.map [("Os", ConfigNode.str "alinux2")]),
     ("HeadNode", ConfigNode.map
       [("InstanceType", ConfigNode.str "c5.xlarge"),
        ("Networking", ConfigNode.map
          [("SubnetId", ConfigNode.str "$\x7bSUBNET_ID\x7d")]),
        ("Ssh", ConfigNode.map
          [("KeyName", ConfigNode.str "$\x7bKEY_NAME\x7d")]),
        ("Iam", ConfigNode.map
          [("S3Access", ConfigNode.seq
            [ConfigNode.map
              [("BucketName", ConfigNode.str "$\x7bBUCKET_NAME\x7d"),
               ("EnableWriteAccess", ConfigNode.bool true)]]),
           ("AdditionalIamPolicies", ConfigNode.seq
            [ConfigNode.map
              [("Policy",
                ConfigNode.str "arn:aws:iam::aws:policy/SecretsManagerReadWrite")]])]),
        ("CustomActions", ConfigNode.map
          [("OnNodeConfigured", ConfigNode.map
            [("Script", ConfigNode.str "$\x7bPOST_INSTALL_SCRIPT_LOCATION\x7d"),
             ("Args", ConfigNode.seq
               [ConfigNode.str "$\x7bPOST_INSTALL_SCRIPT_ARGS_1\x7d",
                ConfigNode.str "$\x7bPOST_INSTALL_SCRIPT_ARGS_2\x7d",
                ConfigNode.str "$\x7bPOST_INSTALL_SCRIPT_ARGS_3\x7d",
                ConfigNode.str "$\x7bPOST_INSTALL_SCRIPT_ARGS_4\x7d",
                ConfigNode.str "$\x7bPOST_INSTALL_SCRIPT_ARGS_5\x7d",
                ConfigNode.str "$\x7bPOST_INSTALL_SCRIPT_ARGS_6\x7d",
                ConfigNode.str "$\x7bPOST_INSTALL_SCRIPT_ARGS_7\x7d",
                ConfigNode.str "$\x7bPOST_INSTALL_SCRIPT_ARGS_8\x7d"])])])]),
     ("Scheduling", ConfigNode.map
       [("Scheduler", ConfigNode.str "slurm"),
        ("SlurmQueues", ConfigNode.seq
          [ConfigNode.map
            [("Name", ConfigNode.str "q1"),
             ("ComputeResources", ConfigNode.seq
               [ConfigNode.map
                 [("Name", ConfigNode.str "c5n2xlarge"),
                  ("InstanceType", ConfigNode.str "c5n.2xlarge"),
                  ("MinCount", ConfigNode.num 0),
                  ("MaxCount", ConfigNode.num 10)]]),
             ("Networking", ConfigNode.map
               [("SubnetIds", ConfigNode.seq
                 [ConfigNode.str "$\x7bSUBNET_ID\x7d"])]),
             ("Iam", ConfigNode.map
               [("S3Access", ConfigNode.seq
                 [ConfigNode.map
                   [("BucketName", ConfigNode.str "$\x7bBUCKET_NAME\x7d"),
                    ("EnableWriteAccess", ConfigNode.bool true)]])])]])]),
     ("SharedStorage", ConfigNode.seq
       [ConfigNode.map
         [("MountDir", ConfigNode.str "/shared"),
          ("Name", ConfigNode.str "shared"),
          ("StorageType", ConfigNode.str "Ebs"),
          ("EbsSettings", ConfigNode.map
            [("VolumeType", ConfigNode.str "gp2"),
             ("Size", ConfigNode.num 50)])]])]

/-- Look up a key in a mapping node. -/
def lookupKey (k : String) : ConfigNode → Option ConfigNode
  | ConfigNode.map es =>
      match es.find? (fun e => e.1 == k) with
      | some e => some e.2
      | none => none
  | _ => none

/-- The keys of a mapping node, in document order. -/
def topKeys : ConfigNode → List String
  | ConfigNode.map es => es.map (fun e => e.1)
  | _ => []

/-- The items of a sequence node wrapped in Option. -/
def seqItems : Option ConfigNode → List ConfigNode
  | some (ConfigNode.seq xs) => xs
  | _ => []

/-- The queues under `Scheduling.SlurmQueues` of the document. -/
def slurmQueues : List ConfigNode :=
  seqItems ((lookupKey "Scheduling" config3_simple).bind (lookupKey "SlurmQueues"))

/-- The compute resources of the first (only) Slurm queue. -/
def q1ComputeResources : List ConfigNode :=
  seqItems (slurmQueues.head?.bind (lookupKey "ComputeResources"))

/-- C5: the top-level keys of the ParallelCluster YAML document are
exactly `Region`, `Image`, `HeadNode`, `Scheduling`, `SharedStorage`, and
no logic node (conditional, loop, or computed value) appears anywhere in
the document — every node is plain data. -/
theorem config3_top_keys_and_no_logic :
    topKeys config3_simple =
      ["Region", "Image", "HeadNode", "Scheduling", "SharedStorage"] ∧
    nodeHasLogic config3_simple = false :=
  ⟨rfl, rfl⟩

/-- C10: the document declares exactly one Slurm queue, named `q1`, with
exactly one compute resource, of instance type `c5n.2xlarge`, with
`MinCount` 0 and `MaxCount` 10 — so the declared fleet may scale to zero
and never exceeds ten nodes. -/
theorem config3_single_queue_fleet_bounds :
    (lookupKey "Scheduling" config3_simple).bind (lookupKey "Scheduler") =
      some (ConfigNode.str "slurm") ∧
    slurmQueues.length = 1 ∧
    (slurmQueues.head?.bind (lookupKey "Name")) = some (ConfigNode.str "q1") ∧
    q1ComputeResources.length = 1 ∧
    (q1ComputeResources.head?.bind (lookupKey "InstanceType")) =
      some (ConfigNode.str "c5n.2xlarge") ∧
    (q1ComputeResources.head?.bind (lookupKey "MinCount")) =
      some (ConfigNode.num 0) ∧
    (q1ComputeResources.head?.bind (lookupKey "MaxCount")) =
      some (ConfigNode.num 10) :=
  ⟨rfl, rfl, rfl, rfl, rfl, rfl, rfl⟩

/-- State of the `str.format` scanner: in plain text, or inside a
replacement field accumulating the (reversed) field name. -/
inductive FmtMode where
  | text
  | field (acc : List Char)

/-- Python `str.format` restricted to what the notebook uses: named
fields `{name}` looked up in the keyword environment, and the doubled
braces which denote one literal brace. A lone closing brace, an
unterminated or nested field, or a missing key raises in Python and is
`none` here. -/
def fmtRun (env : String → Option String) : FmtMode → List Char → Option (List Char)
  | FmtMode.text, [] => some []
  | FmtMode.text, c :: rest =>
      if c = '\x7b' then
        match rest with
        | [] => none
        | d :: rest2 =>
          if d = '\x7b' then (fmtRun env FmtMode.text rest2).map (fun t => '\x7b' :: t)
          else fmtRun env (FmtMode.field []) (d :: rest2)
      else if c = '\x7d' then
        match rest with
        | [] => none
        | d :: rest2 =>
          if d = '\x7d' then (fmtRun env FmtMode.text rest2).map (fun t => '\x7d' :: t)
          else none
      else (fmtRun env FmtMode.text rest).map (fun t => c :: t)
  | FmtMode.field _, [] => none
  | FmtMode.field acc, c :: rest =>
      if c = '\x7d' then
        match env (String.mk acc.reverse) with
        | some v => (fmtRun env FmtMode.text rest).map (fun t => v.toList ++ t)
        | none => none
      else if c = '\x7b' then none
      else fmtRun env (FmtMode.field (c :: acc)) rest

/-- `cell.format(**env)` on a whole string. -/
def pyFormat (env : String → Option String) (s : String) : Option String :=
  (fmtRun env FmtMode.text s.toList).map String.mk

/-- A list of characters containing no brace. -/
def braceFree (l : List Char) : Bool :=
  l.all (fun c => !(c == '\x7b') && !(c == '\x7d'))

/-- A file system as a partial map from path to content. -/
def fsWrite (fs : String → Option String) (p content : String) :
    String → Option String :=
  fun q => if q = p then some content else fs q

/-- The `writetemplate` line-cell magic of the notebook:
`with open(line, 'w+') as f: f.write(cell.format(**globals()))`.
Opening in `w+` truncates, so the resulting content of `line` is exactly
the formatted cell body, whatever was there before; when formatting
raises, the file has still been truncated to empty and the exception
propagates (the Bool records normal completion). -/
def writetemplate (g : String → Option String) (line cell : String)
    (fs : String → Option String) : (String → Option String) × Bool :=
  match pyFormat g cell with
  | some content => (fsWrite fs line content, true)
  | none => (fsWrite fs line "", false)

lemma fmtRun_text_cons (env : String → Option String) (c : Char)
    (l : List Char) (hc1 : ¬c = '\x7b') (hc2 : ¬c = '\x7d') :
    fmtRun env FmtMode.text (c :: l) =
      (fmtRun env FmtMode.text l).map (fun t => c :: t) := by
  rw [fmtRun.eq_def]
  simp [hc1, hc2]

lemma braceFree_cons {c : Char} {l : List Char}
    (h : braceFree (c :: l) = true) :
    (¬c = '\x7b' ∧ ¬c = '\x7d') ∧ braceFree l = true := by
  simp only [braceFree, List.all_cons, Bool.and_eq_true, Bool.not_eq_true',
    beq_eq_false_iff_ne, ne_eq] at h
  exact ⟨h.1, by simp [braceFree, h.2]⟩

lemma fmtRun_text_append (env : String → Option String) :
    ∀ (a rest : List Char), braceFree a = true →
    fmtRun env FmtMode.text (a ++ rest) =
      (fmtRun env FmtMode.text rest).map (fun t => a ++ t)
  | [], rest, _ => by
      cases h : fmtRun env FmtMode.text rest <;> simp [h]
  | c :: a', rest, ha => by
      obtain ⟨⟨hc1, hc2⟩, ha'⟩ := braceFree_cons ha
      rw [List.cons_append, fmtRun_text_cons env c _ hc1 hc2,
        fmtRun_text_append env a' rest ha']
      cases h : fmtRun env FmtMode.text rest <;> simp [h]

lemma fmtRun_field_name (env : String → Option String) :
    ∀ (n acc rest : List Char), braceFree n = true →
    fmtRun env (FmtMode.field acc) (n ++ '\x7d' :: rest) =
      (match env (String.mk (acc.reverse ++ n)) with
       | some v => (fmtRun env FmtMode.text rest).map (fun t => v.toList ++ t)
       | none => none)
  | [], acc, rest, _ => by
      rw [List.nil_append, List.append_nil]
      simp [fmtRun]
  | c :: n', acc, rest, hn => by
      obtain ⟨⟨hc1, hc2⟩, hn'⟩ := braceFree_cons hn
      rw [List.cons_append]
      rw [show fmtRun env (FmtMode.field acc) (c :: (n' ++ '\x7d' :: rest)) =
            fmtRun env (FmtMode.field (c :: acc)) (n' ++ '\x7d' :: rest) by
        simp [fmtRun, hc1, hc2]]
      rw [fmtRun_field_name env n' (c :: acc) rest hn']
      simp

lemma pyFormat_subst (env : String → Option String)
    (a n' b : List Char) (d : Char) (v : String)
    (ha : braceFree a = true) (hn : braceFree (d :: n') = true)
    (hb : braceFree b = true)
    (hv : env (String.mk (d :: n')) = some v) :
    fmtRun env FmtMode.text (a ++ '\x7b' :: d :: (n' ++ '\x7d' :: b)) =
      some (a ++ v.toList ++ b) := by
  obtain ⟨⟨hd1, _⟩, _⟩ := braceFree_cons hn
  rw [fmtRun_text_append env a _ ha]
  rw [show fmtRun env FmtMode.text ('\x7b' :: d :: (n' ++ '\x7d' :: b)) =
        fmtRun env (FmtMode.field []) (d :: (n' ++ '\x7d' :: b)) by
    simp [fmtRun, hd1]]
  rw [show (d :: (n' ++ '\x7d' :: b) : List Char) =
        (d :: n') ++ '\x7d' :: b by simp]
  rw [fmtRun_field_name env (d :: n') [] b hn]
  rw [show (([] : List Char).reverse ++ (d :: n')) = d :: n' by simp, hv]
  have hbeval : fmtRun env FmtMode.text b = some b := by
    have h := fmtRun_text_append env b [] hb
    simpa [fmtRun] using h
  simp [hbeval, List.append_assoc]


lemma fmtRun_text_nil_eval (env : String → Option String)
    (l : List Char) (hl : braceFree l = true) :
    fmtRun env FmtMode.text l = some l := by
  have h := fmtRun_text_append env l [] hl
  simpa [fmtRun] using h

lemma pyFormat_double_escape (env : String → Option String)
    (A B C : List Char) (hA : braceFree A = true) (hB : braceFree B = true)
    (hC : braceFree C = true) :
    fmtRun env FmtMode.text
        (A ++ '\x7b' :: '\x7b' :: (B ++ '\x7d' :: '\x7d' :: C)) =
      some (A ++ '\x7b' :: (B ++ '\x7d' :: C)) := by
  rw [fmtRun_text_append env A _ hA]
  rw [show fmtRun env FmtMode.text ('\x7b' :: '\x7b' :: (B ++ '\x7d' :: '\x7d' :: C)) =
        (fmtRun env FmtMode.text (B ++ '\x7d' :: '\x7d' :: C)).map
          (fun t => '\x7b' :: t) by
    simp [fmtRun]]
  rw [fmtRun_text_append env B _ hB]
  rw [show fmtRun env FmtMode.text ('\x7d' :: '\x7d' :: C) =
        (fmtRun env FmtMode.text C).map (fun t => '\x7d' :: t) by
    simp [fmtRun]]
  rw [fmtRun_text_nil_eval env C hC]
  simp

/-- The text of the `%%writetemplate Dockerfile.myown` cell body up to
(and excluding) the doubled-brace `{{PATH}}` occurrence on the `ENV PATH`
line. -/
def myownPre : String :=
  "#FROM ubuntu:18.04  \n" ++
  "FROM public.ecr.aws/ubuntu/ubuntu:latest\n" ++
  "\n" ++
  "RUN apt-get update \n" ++
  "RUN DEBIAN_FRONTEND=\"noninteractive\" apt-get -y install tzdata \\\n" ++
  "        && apt-get install -y curl wget libxml-libxml-perl awscli uuid-runtime\n" ++
  "\n" ++
  "### Known older version that is preconfigured\n" ++
  "#RUN wget -q https://ftp-trace.ncbi.nlm.nih.gov/sra/sdk/2.10.0/sratoolkit.2.10.0-ubuntu64.tar.gz -O /tmp/sratoolkit.tar.gz \\\n" ++
  "#        && tar zxf /tmp/sratoolkit.tar.gz -C /opt/ && rm /tmp/sratoolkit.tar.gz && ln -s /opt/sratoolkit.2.10.0-ubuntu64 /opt/sratoolkit\n" ++
  "\n" ++
  "### Latest version requires workaround below\n" ++
  "RUN wget -q https://ftp-trace.ncbi.nlm.nih.gov/sra/sdk/current/sratoolkit.current-ubuntu64.tar.gz -O /tmp/sratoolkit.tar.gz \\\n" ++
  "        && tar zxf /tmp/sratoolkit.tar.gz -C /opt/ && rm /tmp/sratoolkit.tar.gz && \\\n" ++
  "        ln -s /opt/sratoolkit.$(curl -s https://ftp-trace.ncbi.nlm.nih.gov/sra/sdk/current/sratoolkit.current.version)-ubuntu64 /opt/sratoolkit\n" ++
  "    \n" ++
  "ENV PATH=\"/opt/sratoolkit/bin/:$"

/-- The text of the `%%writetemplate Dockerfile.myown` cell body after
the doubled-brace `{{PATH}}` occurrence. -/
def myownPost : String :=
  "\"\n" ++
  "\n" ++
  "ADD sratest.sh /usr/local/bin/sratest.sh\n" ++
  "RUN chmod +x /usr/local/bin/sratest.sh\n" ++
  "\n" ++
  "### Workaround for vdb-config --interactive\n" ++
  "RUN mkdir /tmp/.ncbi && printf \x27/LIBS/GUID = \"%s\"\\n\x27 \x60uuidgen\x60 > /tmp/.ncbi/user-settings.mkfg\n" ++
  "\n" ++
  "ENV HOME=/tmp\n" ++
  "WORKDIR /tmp\n" ++
  "\n" ++
  "USER nobody\n" ++
  "ENTRYPOINT [\"/usr/local/bin/sratest.sh\"]"

/-- The body of the notebook's `%%writetemplate Dockerfile.myown` cell:
the prefix, then `{{PATH}}` (the only braces in the template), then the
rest. -/
def dockerfileMyownText : String :=
  String.mk (myownPre.toList ++ '\x7b' :: '\x7b' ::
    ("PATH".toList ++ '\x7d' :: '\x7d' :: myownPost.toList))

/-- What `str.format` writes for `Dockerfile.myown`: the identical text
except that each doubled brace has become a single literal brace, so the
`ENV` line now ends in `${PATH}`. -/
def dockerfileMyownFormatted : String :=
  String.mk (myownPre.toList ++ '\x7b' ::
    ("PATH".toList ++ '\x7d' :: myownPost.toList))

set_option maxRecDepth 8000 in
/-- C9: the `writetemplate` magic opens the file named on its line in
`w+` mode — truncating, so the result at that path never depends on the
previous file system content — and writes the cell body after applying
Python `str.format` over the notebook globals: a single-brace placeholder
such as `{bucket}` becomes the current value of that global, while
doubled braces pass through as one literal brace, so the `${{PATH}}` of
`Dockerfile.myown` is written as `${PATH}` (for every globals
environment, since that template contains no single-brace field). -/
theorem writetemplate_w_plus_format
    (g fs1 fs2 : String → Option String) (line cell : String)
    (a n' b : List Char) (d : Char) (v : String)
    (ha : braceFree a = true) (hn : braceFree (d :: n') = true)
    (hb : braceFree b = true) (hv : g (String.mk (d :: n')) = some v) :
    (writetemplate g line cell fs1).1 line =
      (writetemplate g line cell fs2).1 line ∧
    (writetemplate g line
        (String.mk (a ++ '\x7b' :: d :: (n' ++ '\x7d' :: b))) fs1).1 line =
      some (String.mk (a ++ v.toList ++ b)) ∧
    pyFormat g dockerfileMyownText = some dockerfileMyownFormatted := by
  refine ⟨?_, ?_, ?_⟩
  · unfold writetemplate
    cases h : pyFormat g cell <;> simp [fsWrite]
  · have hsub := pyFormat_subst g a n' b d v ha hn hb hv
    unfold writetemplate pyFormat
    rw [show (String.mk (a ++ '\x7b' :: d :: (n' ++ '\x7d' :: b))).toList =
          a ++ '\x7b' :: d :: (n' ++ '\x7d' :: b) from rfl]
    rw [hsub]
    simp [fsWrite]
  · have h := pyFormat_double_escape g myownPre.toList "PATH".toList
      myownPost.toList (by decide) (by decide) (by decide)
    show (fmtRun g FmtMode.text
        (String.mk (myownPre.toList ++ '\x7b' :: '\x7b' ::
          ("PATH".toList ++ '\x7d' :: '\x7d' :: myownPost.toList))).toList).map
        String.mk = some dockerfileMyownFormatted
    rw [show (String.mk (myownPre.toList ++ '\x7b' :: '\x7b' ::
          ("PATH".toList ++ '\x7d' :: '\x7d' :: myownPost.toList))).toList =
        myownPre.toList ++ '\x7b' :: '\x7b' ::
          ("PATH".toList ++ '\x7d' :: '\x7d' :: myownPost.toList) from rfl]
    rw [h]
    rfl

/-- Witness for C9: formatting the template `s3://{bucket}/data` under a
globals environment binding `bucket` to `my-bucket-1234` and writing it
over a file system that already had content at `sratest.sh` yields
exactly `s3://my-bucket-1234/data` at that path. -/
theorem writetemplate_w_plus_format_witness :
    (writetemplate (fun s => if s = "bucket" then some "my-bucket-1234" else none)
        "sratest.sh"
        (String.mk ("s3://".toList ++ '\x7b' :: 'b' ::
          ("ucket".toList ++ '\x7d' :: "/data".toList)))
        (fun _ => some "previous content")).1 "sratest.sh" =
      some (String.mk ("s3://".toList ++ "my-bucket-1234".toList ++
        "/data".toList)) :=
  (writetemplate_w_plus_format
    (fun s => if s = "bucket" then some "my-bucket-1234" else none)
    (fun _ => some "previous content") (fun _ => none)
    "sratest.sh" "unused" "s3://".toList "ucket".toList "/data".toList
    'b' "my-bucket-1234" (by decide) (by decide) (by decide) (by decide)).2.1

/-- A Python expression, as the notebook's code cells use them. -/
inductive PyExpr where
  | lit (s : String)
  | num (n : Int)
  | boolLit (b : Bool)
  | var (x : String)
  | fstr (parts : List ShTok)
  | attr (obj : PyExpr) (field : String)
  | call (f : PyExpr) (args : List PyExpr)
  | kwArg (name : String) (val : PyExpr)
  | doubleStar (e : PyExpr)
  | binop (op : String) (a b : PyExpr)
  | unaryNot (e : PyExpr)
  | index (obj : PyExpr) (i : PyExpr)
  | shellOut (c : ShCmd)

/-- A Python statement of a notebook cell. `shell` is a `!command` line,
`magicCell` a `%%name arg` cell invocation carrying the raw cell body. -/
inductive PyStmt where
  | imprt (module_ : String)
  | imprtAs (module_ alias_ : String)
  | fromImprt (module_ : String) (names : List String)
  | assign (lhs : String) (rhs : PyExpr)
  | assignTuple (lhs : List String) (rhs : PyExpr)
  | augAssign (lhs op : String) (rhs : PyExpr)
  | exprStmt (e : PyExpr)
  | funcDef (decorators : List String) (name : String) (params : List String)
      (body : List PyStmt)
  | forIn (v : String) (iter : PyExpr) (body : List PyStmt)
  | whileLoop (cond : PyExpr) (body : List PyStmt)
  | ifThen (cond : PyExpr) (thn els : List PyStmt)
  | withAs (ctx : PyExpr) (v : String) (body : List PyStmt)
  | ret (e : PyExpr)
  | tryExcept (body : List PyStmt) (exc : String) (handler : List PyStmt)
  | shell (c : ShCmd)
  | magicCell (name arg : String) (body : String)
  | commentLine (t : String)

/-- A code cell of the notebook: a name for reference and its statements. -/
structure Cell where
  name : String
  stmts : List PyStmt

/-- The immediate sub-statements of a statement. -/
def stmtChildren : PyStmt → List PyStmt
  | PyStmt.funcDef _ _ _ b => b
  | PyStmt.forIn _ _ b => b
  | PyStmt.whileLoop _ b => b
  | PyStmt.ifThen _ t e => t ++ e
  | PyStmt.withAs _ _ b => b
  | PyStmt.tryExcept b _ h => b ++ h
  | _ => []

/-- All statements reachable within `fuel` nesting levels (breadth
first); fuel 16 exceeds the maximal statement nesting depth (4) of the
notebook. -/
def allStmtsFuel : Nat → List PyStmt → List PyStmt
  | 0, _ => []
  | Nat.succ k, ss => ss ++ allStmtsFuel k (ss.flatMap stmtChildren)

/-- All statements of a statement list, nested ones included. -/
def allStmts (ss : List PyStmt) : List PyStmt := allStmtsFuel 16 ss

/-- The expressions appearing directly in a statement. -/
def stmtExprs : PyStmt → List PyExpr
  | PyStmt.assign _ e => [e]
  | PyStmt.assignTuple _ e => [e]
  | PyStmt.augAssign _ _ e => [e]
  | PyStmt.exprStmt e => [e]
  | PyStmt.forIn _ it _ => [it]
  | PyStmt.whileLoop c _ => [c]
  | PyStmt.ifThen c _ _ => [c]
  | PyStmt.withAs c _ _ => [c]
  | PyStmt.ret e => [e]
  | _ => []

/-- The immediate sub-expressions of an expression. -/
def exprChildren : PyExpr → List PyExpr
  | PyExpr.attr o _ => [o]
  | PyExpr.call f args => f :: args
  | PyExpr.kwArg _ v => [v]
  | PyExpr.doubleStar e => [e]
  | PyExpr.binop _ x y => [x, y]
  | PyExpr.unaryNot e => [e]
  | PyExpr.index o i => [o, i]
  | _ => []

/-- All expressions reachable within `fuel` nesting levels. -/
def allExprsFuel : Nat → List PyExpr → List PyExpr
  | 0, _ => []
  | Nat.succ k, es => es ++ allExprsFuel k (es.flatMap exprChildren)

/-- Every expression of a cell, nested ones included. -/
def cellExprs (c : Cell) : List PyExpr :=
  allExprsFuel 16 ((allStmts c.stmts).flatMap stmtExprs)

def isTryStmt : PyStmt → Bool
  | PyStmt.tryExcept _ _ _ => true
  | _ => false

def isIfStmt : PyStmt → Bool
  | PyStmt.ifThen _ _ _ => true
  | _ => false

def isForStmt : PyStmt → Bool
  | PyStmt.forIn _ _ _ => true
  | _ => false

def isWhileStmt : PyStmt → Bool
  | PyStmt.whileLoop _ _ => true
  | _ => false

/-- Whether a cell contains a try/except statement anywhere. -/
def cellHasTry (c : Cell) : Bool := (allStmts c.stmts).any isTryStmt

/-- Whether a cell contains an if statement anywhere. -/
def cellHasIf (c : Cell) : Bool := (allStmts c.stmts).any isIfStmt

/-- Whether a cell contains a for loop anywhere. -/
def cellHasFor (c : Cell) : Bool := (allStmts c.stmts).any isForStmt

/-- Whether a cell contains a while loop anywhere. -/
def cellHasWhile (c : Cell) : Bool := (allStmts c.stmts).any isWhileStmt

/-- The condition of an if statement. -/
def stmtIfCond : PyStmt → List PyExpr
  | PyStmt.ifThen c _ _ => [c]
  | _ => []

/-- The shell commands a statement issues (a `!` line, or a `x = !cmd`
capture). -/
def stmtShellCmds : PyStmt → List ShCmd
  | PyStmt.shell c => [c]
  | PyStmt.assign _ (PyExpr.shellOut c) => [c]
  | _ => []

/-- Every shell command a cell issues, in order. -/
def cellShellCmds (c : Cell) : List ShCmd :=
  (allStmts c.stmts).flatMap stmtShellCmds

/-- Body of the `%%writetemplate Dockerfile` cell (the simple Apache
"Hello World" image). -/
def dockerfileSimpleText : String :=
  "FROM ubuntu:18.04\n" ++
  "  \n" ++
  "# Install dependencies and apache web server\n" ++
  "RUN apt-get update && apt-get -y install apache2\n" ++
  "\n" ++
  "# Create the index html\n" ++
  "RUN echo \x27Hello World!\x27 > /var/www/html/index.html\n" ++
  "\n" ++
  "# Configure apache \n" ++
  "RUN echo \x27. /etc/apache2/envvars\x27 > /root/run_apache.sh && \\\n" ++
  " echo \x27mkdir -p /var/run/apache2\x27 >> /root/run_apache.sh && \\\n" ++
  " echo \x27mkdir -p /var/lock/apache2\x27 >> /root/run_apache.sh && \\\n" ++
  " echo \x27/usr/sbin/apache2 -D FOREGROUND\x27 >> /root/run_apache.sh && \\\n" ++
  " chmod 755 /root/run_apache.sh\n" ++
  "\n" ++
  "EXPOSE 80\n" ++
  "\n" ++
  "CMD /root/run_apache.sh"

/-- Body of the `%%writetemplate sratest.sh` cell; `sratest_sh` above is
its line-by-line parse. -/
def sratestText : String :=
  "#!/bin/bash\n" ++
  "set -x\n" ++
  "\n" ++
  "## Prefetch accession\n" ++
  "prefetch $PACKAGE_NAME --output-directory /tmp\n" ++
  "\n" ++
  "## Perform conversion using 8 threads (more will lead to I/O issues)\n" ++
  "fasterq-dump $PACKAGE_NAME -e 8\n" ++
  "\n" ++
  "## Upload results to S3 bucket\n" ++
  "aws s3 sync . $SRA_OUTPUT/$PACKAGE_NAME\n" ++
  "    "

/-- Body of the `%%writetemplate Dockerfile.ncbi` cell. -/
def dockerfileNcbiText : String :=
  "FROM ncbi/sra-tools\n" ++
  "\n" ++
  "RUN apk add gcc alpine-sdk python3-dev python3 py3-pip && pip3 install awscli\n" ++
  "RUN export PATH=/usr/local/bin/aws/bin:$PATH\n" ++
  "ADD sratest.sh /usr/local/bin/sratest.sh\n" ++
  "RUN chmod +x /usr/local/bin/sratest.sh\n" ++
  "WORKDIR /tmp\n" ++
  "ENTRYPOINT [\"/bin/sh\",\"/usr/local/bin/sratest.sh\"]"

open PyExpr PyStmt

/-- Cell 1: the imports. -/
def importsCell : Cell :=
  ⟨"imports",
   [imprt "boto3", imprt "botocore", imprt "json", imprt "time",
    imprt "os", imprt "base64", imprt "docker", imprtAs "pandas" "pd",
    imprt "project_path", fromImprt "lib" ["workshop"],
    fromImprt "botocore.exceptions" ["ClientError"]]⟩

/-- Cell 2: boto3 session, region, bucket name, bucket creation. -/
def createBucketCell : Cell :=
  ⟨"create-bucket",
   [assign "session" (call (attr (attr (var "boto3") "session") "Session") []),
    assign "region" (attr (var "session") "region_name"),
    assign "bucket_name"
      (call (attr (var "workshop") "create_bucket_name")
        [lit "sagemaker-container-ws-"]),
    assign "bucket"
      (call (attr (var "workshop") "create_bucket")
        [var "region", var "session", var "bucket_name", boolLit false]),
    exprStmt (call (var "print") [var "bucket"])]⟩

/-- Cell 3: definition of the `writetemplate` line-cell magic. -/
def writetemplateDefCell : Cell :=
  ⟨"writetemplate-def",
   [fromImprt "IPython.core.magic" ["register_line_cell_magic"],
    funcDef ["register_line_cell_magic"] "writetemplate" ["line", "cell"]
      [withAs (call (var "open") [var "line", lit "w+"]) "f"
        [exprStmt (call (attr (var "f") "write")
          [call (attr (var "cell") "format")
            [doubleStar (call (var "globals") [])]])]]]⟩

/-- Cell 4: writes the simple-server Dockerfile. -/
def dockerfileSimpleCell : Cell :=
  ⟨"dockerfile-simple",
   [magicCell "writetemplate" "Dockerfile" dockerfileSimpleText]⟩

/-- Cell 5: `docker build -t simple_server .`. -/
def buildSimpleCell : Cell :=
  ⟨"build-simple",
   [shell (ShCmd.simple
     [[ShTok.lit "docker"], [ShTok.lit "build"], [ShTok.lit "-t"],
      [ShTok.lit "simple_server"], [ShTok.lit "."]])]⟩

/-- The detached `docker run -d -p 8080:80 simple_server` command. -/
def dockerRunDetachedCmd : ShCmd :=
  ShCmd.simple
    [[ShTok.lit "docker"], [ShTok.lit "run"], [ShTok.lit "-d"],
     [ShTok.lit "-p"], [ShTok.lit "8080:80"], [ShTok.lit "simple_server"]]

/-- The `sleep 3 && docker ps` chain of the run cell. -/
def sleepPsChain : ShCmd :=
  ShCmd.andThen
    (ShCmd.simple [[ShTok.lit "sleep"], [ShTok.lit "3"]])
    (ShCmd.simple [[ShTok.lit "docker"], [ShTok.lit "ps"]])

/-- Cell 6: run the simple server detached, wait, list, curl it. -/
def runSimpleCell : Cell :=
  ⟨"run-simple",
   [assign "c_id" (shellOut dockerRunDetachedCmd),
    shell sleepPsChain,
    shell (ShCmd.simple
      [[ShTok.lit "curl"], [ShTok.lit "http://localhost:8080"]])]⟩

/-- Cell 7: list running containers via the docker SDK and stop the
simple server. -/
def listStopCell : Cell :=
  ⟨"list-and-stop",
   [funcDef [] "list_all_running_containers" []
      [assign "docker_client" (call (attr (var "docker") "from_env") []),
       assign "container_list"
         (call (attr (attr (var "docker_client") "containers") "list") []),
       forIn "c" (var "container_list")
         [exprStmt (call (var "print")
           [index (attr (var "c") "attrs") (lit "Id"),
            index (index (attr (var "c") "attrs") (lit "State"))
              (lit "Status")])],
       ret (var "container_list")],
    assign "docker_client" (call (attr (var "docker") "from_env") []),
    assign "running_containers" (call (var "list_all_running_containers") []),
    exprStmt (call (var "print") [lit "Stopping container... ", var "c_id"]),
    assign "simple_server_container"
      (call (attr (attr (var "docker_client") "containers") "get")
        [index (var "c_id") (num 0)]),
    exprStmt (call (attr (var "simple_server_container") "stop") [])]⟩

/-- Cell 8: SRA environment: package name, output prefix, credentials. -/
def sraEnvCell : Cell :=
  ⟨"sra-env",
   [assign "PACKAGE_NAME" (lit "SRR000002"),
    commentLine "# this is where the output will be stored",
    assign "sra_prefix" (lit "data/sra-toolkit/fasterq"),
    assign "sra_output"
      (fstr [ShTok.lit "s3://", ShTok.var "bucket", ShTok.lit "/",
        ShTok.var "sra_prefix"]),
    commentLine "# to run the docker container locally, you need the access credentials inside the container when using AWS CLI",
    commentLine "# pass the current keys and session token to the container via environment variables",
    assign "credentials"
      (call (attr (call (attr (attr (var "boto3") "session") "Session") [])
        "get_credentials") []),
    assign "current_credentials"
      (call (attr (var "credentials") "get_frozen_credentials") []),
    commentLine "# Please don\x27t print these out or store them in files:",
    assign "access_key" (attr (var "current_credentials") "access_key"),
    assign "secret_key" (attr (var "current_credentials") "secret_key"),
    assign "token" (attr (var "current_credentials") "token")]⟩

/-- Cell 9: writes `sratest.sh`. -/
def sratestTemplateCell : Cell :=
  ⟨"sratest-template",
   [magicCell "writetemplate" "sratest.sh" sratestText]⟩

/-- Cell 10: writes `Dockerfile.ncbi`. -/
def dockerfileNcbiCell : Cell :=
  ⟨"dockerfile-ncbi",
   [magicCell "writetemplate" "Dockerfile.ncbi" dockerfileNcbiText]⟩

/-- Cell 11: `docker build -t myncbi/sra-tools -f Dockerfile.ncbi .`. -/
def buildNcbiCell : Cell :=
  ⟨"build-ncbi",
   [shell (ShCmd.simple
     [[ShTok.lit "docker"], [ShTok.lit "build"], [ShTok.lit "-t"],
      [ShTok.lit "myncbi/sra-tools"], [ShTok.lit "-f"],
      [ShTok.lit "Dockerfile.ncbi"], [ShTok.lit "."]])]⟩

/-- The `docker run ... myncbi/sra-tools:latest` command (the source
passes `--env PACKAGE_NAME=$PACKAGE_NAME` twice). -/
def runNcbiCmd : ShCmd :=
  ShCmd.simple
    [[ShTok.lit "docker"], [ShTok.lit "run"],
     [ShTok.lit "--env"], [ShTok.lit "SRA_OUTPUT=", ShTok.var "sra_output"],
     [ShTok.lit "--env"], [ShTok.lit "PACKAGE_NAME=", ShTok.var "PACKAGE_NAME"],
     [ShTok.lit "--env"], [ShTok.lit "PACKAGE_NAME=", ShTok.var "PACKAGE_NAME"],
     [ShTok.lit "--env"], [ShTok.lit "AWS_ACCESS_KEY_ID=", ShTok.var "access_key"],
     [ShTok.lit "--env"], [ShTok.lit "AWS_SECRET_ACCESS_KEY=", ShTok.var "secret_key"],
     [ShTok.lit "--env"], [ShTok.lit "AWS_SESSION_TOKEN=", ShTok.var "token"],
     [ShTok.lit "myncbi/sra-tools:latest"]]

/-- Cell 12: first run of the ncbi-based image, SRR000002. -/
def runNcbi1Cell : Cell :=
  ⟨"run-ncbi-1",
   [assign "PACKAGE_NAME" (lit "SRR000002"),
    commentLine "# only run this when you need to clean up the registry and storage",
    commentLine "#!docker system prune -a -f",
    shell runNcbiCmd]⟩

/-- Cell 13: second run of the ncbi-based image, SRR000003. -/
def runNcbi2Cell : Cell :=
  ⟨"run-ncbi-2",
   [commentLine "# Now try a differnet package",
    assign "PACKAGE_NAME" (lit "SRR000003"),
    shell runNcbiCmd]⟩

/-- Cell 14: writes `Dockerfile.myown`. -/
def dockerfileMyownCell : Cell :=
  ⟨"dockerfile-myown",
   [magicCell "writetemplate" "Dockerfile.myown" dockerfileMyownText]⟩

/-- Cell 15: `docker build -t myownncbi/sra-tools -f Dockerfile.myown .`. -/
def buildMyownCell : Cell :=
  ⟨"build-myown",
   [shell (ShCmd.simple
     [[ShTok.lit "docker"], [ShTok.lit "build"], [ShTok.lit "-t"],
      [ShTok.lit "myownncbi/sra-tools"], [ShTok.lit "-f"],
      [ShTok.lit "Dockerfile.myown"], [ShTok.lit "."]])]⟩

/-- The `docker run ... myownncbi/sra-tools:latest` command. -/
def runMyownCmd : ShCmd :=
  ShCmd.simple
    [[ShTok.lit "docker"], [ShTok.lit "run"],
     [ShTok.lit "--env"], [ShTok.lit "SRA_OUTPUT=", ShTok.var "sra_output"],
     [ShTok.lit "--env"], [ShTok.lit "PACKAGE_NAME=", ShTok.var "PACKAGE_NAME"],
     [ShTok.lit "--env"], [ShTok.lit "AWS_ACCESS_KEY_ID=", ShTok.var "access_key"],
     [ShTok.lit "--env"], [ShTok.lit "AWS_SECRET_ACCESS_KEY=", ShTok.var "secret_key"],
     [ShTok.lit "--env"], [ShTok.lit "AWS_SESSION_TOKEN=", ShTok.var "token"],
     [ShTok.lit "myownncbi/sra-tools:latest"]]

/-- Cell 16: run of the self-built image, SRR000004. -/
def runMyownCell : Cell :=
  ⟨"run-myown",
   [assign "PACKAGE_NAME" (lit "SRR000004"),
    shell runMyownCmd]⟩

/-- The `if not os.path.exists(p)` condition of the download loop. -/
def downloadIfCond : PyExpr :=
  unaryNot (call (attr (attr (var "os") "path") "exists") [var "p"])

/-- Cell 17: list the produced objects in the bucket and download each. -/
def s3DownloadCell : Cell :=
  ⟨"s3-download",
   [commentLine "# checkout the outfiles on S3",
    assign "s3_client" (call (attr (var "session") "client") [lit "s3"]),
    assign "objs"
      (call (attr (var "s3_client") "list_objects")
        [kwArg "Bucket" (var "bucket"), kwArg "Prefix" (var "sra_prefix")]),
    forIn "obj" (index (var "objs") (lit "Contents"))
      [assign "fn" (index (var "obj") (lit "Key")),
       assign "p" (call (attr (attr (var "os") "path") "dirname") [var "fn"]),
       ifThen downloadIfCond
         [exprStmt (call (attr (var "os") "makedirs") [var "p"])] [],
       exprStmt (call (attr (var "s3_client") "download_file")
         [var "bucket", var "fn", var "fn"])]]⟩

/-- Cell 18: `pip install bioinfokit`. -/
def pipCell : Cell :=
  ⟨"pip-bioinfokit",
   [shell (ShCmd.simple
     [[ShTok.lit "pip"], [ShTok.lit "install"], [ShTok.lit "bioinfokit"]])]⟩

/-- The `if i < 10` condition of the fastq inspection loop. -/
def inspectIfCond : PyExpr := binop "<" (var "i") (num 10)

/-- Cell 19: read the fastq file and print the first ten records. -/
def fastqInspectCell : Cell :=
  ⟨"fastq-inspect",
   [fromImprt "bioinfokit.analys" ["fastq"],
    assign "fastq_iter"
      (call (attr (var "fastq") "fastq_reader")
        [kwArg "file" (fstr
          [ShTok.var "sra_prefix", ShTok.lit "/", ShTok.var "PACKAGE_NAME",
           ShTok.lit "/", ShTok.var "PACKAGE_NAME", ShTok.lit ".fastq"])]),
    commentLine "# read fastq file and print out the first 10,",
    assign "i" (num 0),
    forIn "record" (var "fastq_iter")
      [commentLine "# get sequence headers, sequence, and quality values",
       assignTuple ["header_1", "sequence", "header_2", "qual"] (var "record"),
       commentLine "# get sequence length",
       assign "sequence_len" (call (var "len") [var "sequence"]),
       commentLine "# count A bases",
       assign "a_base" (call (attr (var "sequence") "count") [lit "A"]),
       ifThen inspectIfCond
         [exprStmt (call (var "print")
           [var "sequence", var "qual", var "a_base", var "sequence_len"])] [],
       augAssign "i" "+" (num 1)],
    exprStmt (call (var "print")
      [fstr [ShTok.lit "Total number of records for package ",
        ShTok.var "PACKAGE_NAME", ShTok.lit " : ", ShTok.var "i"]])]⟩

/-- Cell 20: cleanup — force-remove the bucket and the local files. -/
def cleanupCell : Cell :=
  ⟨"cleanup",
   [shell (ShCmd.simple
     [[ShTok.lit "aws"], [ShTok.lit "s3"], [ShTok.lit "rb"],
      [ShTok.lit "s3://", ShTok.var "bucket"], [ShTok.lit "--force"]]),
    shell (ShCmd.simple
      [[ShTok.lit "rm"], [ShTok.lit "-rf"], [ShTok.var "sra_prefix"]])]⟩

/-- All code cells of `container-basic.ipynb`, in notebook order (a final
empty cell is omitted). -/
def notebookCells : List Cell :=
  [importsCell, createBucketCell, writetemplateDefCell, dockerfileSimpleCell,
   buildSimpleCell, runSimpleCell, listStopCell, sraEnvCell,
   sratestTemplateCell, dockerfileNcbiCell, buildNcbiCell, runNcbi1Cell,
   runNcbi2Cell, dockerfileMyownCell, buildMyownCell, runMyownCell,
   s3DownloadCell, pipCell, fastqInspectCell, cleanupCell]

/-- Every shell command the notebook issues, cells in order, followed by
the commands of the generated `sratest.sh` script. -/
def allRepoCommands : List ShCmd :=
  (notebookCells.flatMap cellShellCmds) ++ scriptCmds sratest_sh

/-- An S3 operation the repository issues. -/
inductive S3Op where
  | createBucket
  | listObjects
  | downloadFile
  | s3Sync
  | removeBucket (force : Bool)
deriving DecidableEq

/-- The S3 operation an SDK call expression performs, keyed on the
receiver/method pairs used by the notebook. `workshop.create_bucket` is
defined in `lib/workshop`, which is not among the source files; per the
spec it performs S3 bucket creation, so its call site is recorded as that
operation. -/
def exprS3Op : PyExpr → List S3Op
  | PyExpr.call (PyExpr.attr (PyExpr.var "workshop") "create_bucket") _ =>
      [S3Op.createBucket]
  | PyExpr.call (PyExpr.attr (PyExpr.var "s3_client") "list_objects") _ =>
      [S3Op.listObjects]
  | PyExpr.call (PyExpr.attr (PyExpr.var "s3_client") "download_file") _ =>
      [S3Op.downloadFile]
  | _ => []

/-- The S3 operations an `aws s3 <sub>` shell command performs. -/
def shCmdS3Ops : ShCmd → List S3Op
  | ShCmd.simple ([ShTok.lit "aws"] :: [ShTok.lit "s3"] :: sub :: rest) =>
      if sub = [ShTok.lit "sync"] then [S3Op.s3Sync]
      else if sub = [ShTok.lit "rb"] then
        [S3Op.removeBucket (rest.contains [ShTok.lit "--force"])]
      else []
  | ShCmd.simple _ => []
  | ShCmd.andThen a b => shCmdS3Ops a ++ shCmdS3Ops b
  | ShCmd.orElse a b => shCmdS3Ops a ++ shCmdS3Ops b

/-- All S3 operations a cell issues (SDK calls, then `!` commands). -/
def cellS3Ops (c : Cell) : List S3Op :=
  (cellExprs c).flatMap exprS3Op ++ (cellShellCmds c).flatMap shCmdS3Ops

/-- All S3 operations the repository issues: the notebook cells in order,
then the `sratest.sh` script. -/
def repoS3Ops : List S3Op :=
  (notebookCells.flatMap cellS3Ops) ++
    (scriptCmds sratest_sh).flatMap shCmdS3Ops

/-- Whether a command is a `docker run` invocation. -/
def isDockerRun : ShCmd → Bool
  | ShCmd.simple ([ShTok.lit "docker"] :: [ShTok.lit "run"] :: _) => true
  | _ => false

/-- Whether a command mentions the given word. -/
def hasWord (w : ShWord) : ShCmd → Bool
  | ShCmd.simple ws => ws.contains w
  | ShCmd.andThen a b => hasWord w a || hasWord w b
  | ShCmd.orElse a b => hasWord w a || hasWord w b

/-- The word following the given literal flag, if any. -/
def flagValue (f : String) : List ShWord → Option ShWord
  | [] => none
  | w :: ws => if w = [ShTok.lit f] then ws.head? else flagValue f ws

/-- A `docker run -d` command asks the daemon to run the container
detached, in the background. -/
def requestsBackground (c : ShCmd) : Bool :=
  isDockerRun c && hasWord [ShTok.lit "-d"] c

/-- Read a decimal numeral from characters (48–57 are the digit code
points); `none` on a non-digit. -/
def natOfDigitsAux : Nat → List Char → Option Nat
  | acc, [] => some acc
  | acc, c :: cs =>
      if 48 ≤ c.toNat ∧ c.toNat ≤ 57 then
        natOfDigitsAux (acc * 10 + (c.toNat - 48)) cs
      else none

/-- A decimal numeral string as a number, as `int(...)` reads it. -/
def strToNat? (s : String) : Option Nat :=
  match s.toList with
  | [] => none
  | c :: cs => natOfDigitsAux 0 (c :: cs)

/-- A command with `-e n`, `n > 1`, asks the tool for `n` worker threads
(the `fasterq-dump` thread-count flag). -/
def requestsThreads : ShCmd → Bool
  | ShCmd.simple ws =>
      match flagValue "-e" ws with
      | some [ShTok.lit n] =>
          match strToNat? n with
          | some k => decide (1 < k)
          | none => false
      | _ => false
  | _ => false

/-- A build or run event of the Docker image registry. -/
inductive DockerEvent where
  | build (tag : String)
  | run (image : String)
deriving DecidableEq

/-- The simple word-lists of a command. -/
def cmdSimpleWords : ShCmd → List (List ShWord)
  | ShCmd.simple ws => [ws]
  | ShCmd.andThen a b => cmdSimpleWords a ++ cmdSimpleWords b
  | ShCmd.orElse a b => cmdSimpleWords a ++ cmdSimpleWords b

/-- The docker registry event of a simple command: `docker build -t TAG`
produces the tag, `docker run ... IMAGE` consumes the image named by its
last word (no run in the notebook passes container arguments). -/
def dockerEventsOfWords : List ShWord → List DockerEvent
  | [ShTok.lit "docker"] :: [ShTok.lit "build"] :: rest =>
      match flagValue "-t" rest with
      | some [ShTok.lit t] => [DockerEvent.build t]
      | _ => []
  | [ShTok.lit "docker"] :: [ShTok.lit "run"] :: rest =>
      match rest.getLast? with
      | some [ShTok.lit img] => [DockerEvent.run img]
      | _ => []
  | _ => []

/-- Whether a simple command is a `docker build` or `docker run`. -/
def isDockerBuildOrRun : List ShWord → Bool
  | [ShTok.lit "docker"] :: w :: _ =>
      w == [ShTok.lit "build"] || w == [ShTok.lit "run"]
  | _ => false

/-- All docker build/run events of the repository, in issue order. -/
def dockerEvents : List DockerEvent :=
  (allRepoCommands.flatMap cmdSimpleWords).flatMap dockerEventsOfWords

/-- The characters before the first colon. -/
def takeUntilColon : List Char → List Char
  | [] => []
  | c :: cs => if c == ':' then [] else c :: takeUntilColon cs

/-- Whether a colon occurs. -/
def hasColon : List Char → Bool
  | [] => false
  | c :: cs => c == ':' || hasColon cs

/-- The repository part of an image reference (the part before `:`). -/
def repoPart (s : String) : String := String.mk (takeUntilColon s.toList)

/-- Docker's image reference resolution: a reference without a tag part
denotes the `:latest` tag of its repository. -/
def normalizeRef (s : String) : String :=
  if hasColon s.toList then s else s ++ ":latest"

/-- Pair each `docker run` with the most recent preceding `docker build`
of the same repository name. -/
def buildRunPairsAux : List String → List DockerEvent → List (String × String)
  | _, [] => []
  | builds, DockerEvent.build t :: es => buildRunPairsAux (t :: builds) es
  | builds, DockerEvent.run img :: es =>
      (match builds.find? (fun b => repoPart b == repoPart img) with
       | some b => [(b, img)]
       | none => [("<no-build>", img)]) ++ buildRunPairsAux builds es

/-- The build/run pairs of the notebook. -/
def buildRunPairs : List (String × String) :=
  buildRunPairsAux [] dockerEvents

/-- Whether a command is an exit-code conditioned chain (`&&` or `||`):
its second part runs or not depending on the first part's exit code. -/
def cmdHasChain : ShCmd → Bool
  | ShCmd.simple _ => false
  | ShCmd.andThen _ _ => true
  | ShCmd.orElse _ _ => true

/-- Whether a command contains an `a || b` fallback (run `b` when `a`
fails) anywhere. -/
def cmdHasOrElse : ShCmd → Bool
  | ShCmd.simple _ => false
  | ShCmd.andThen a b => cmdHasOrElse a || cmdHasOrElse b
  | ShCmd.orElse _ _ => true

/-- Every if-statement condition appearing in any notebook cell. -/
def allIfConds : List PyExpr :=
  notebookCells.flatMap (fun cl => (allStmts cl.stmts).flatMap stmtIfCond)

/-- C2 counterexample: the notebook also issues an S3 object download —
`s3_client.download_file` in the download cell — which is not among the
four operations the claim lists (bucket creation, object listing, sync,
`rb --force`). -/
theorem s3_download_file_also_issued :
    S3Op.downloadFile ∈ repoS3Ops ∧
    S3Op.downloadFile ∉
      [S3Op.createBucket, S3Op.listObjects, S3Op.s3Sync,
       S3Op.removeBucket true] := by
  decide

/-- C2 amended: the S3 operations issued by the repository are exactly
bucket creation, object listing, object download (`download_file`),
`sync`, and `rb --force`, in this issue order (cells first, then the
generated script). -/
theorem s3_operations_issued_exactly :
    repoS3Ops =
      [S3Op.createBucket, S3Op.listObjects, S3Op.downloadFile,
       S3Op.removeBucket true, S3Op.s3Sync] := by
  decide

/-- C3 counterexample: two commands the cells run do request concurrency
from the wrapped tools — `docker run -d` detaches the simple-server
container to run in the background, and `fasterq-dump -e 8` (in
`sratest.sh`, run by the containers the cells start) requests eight
worker threads. -/
theorem concurrency_requested_by_commands :
    requestsBackground dockerRunDetachedCmd = true ∧
    dockerRunDetachedCmd ∈ allRepoCommands ∧
    requestsThreads fasterqCmd = true ∧
    fasterqCmd ∈ allRepoCommands := by
  decide

/-- C3 amended: within the strictly ordered cell sequence, exactly two
invoked commands request concurrent execution from the wrapped tools —
the detached `docker run -d` and the eight-thread `fasterq-dump -e 8` —
and no other command of the notebook or of `sratest.sh` requests
background or multithreaded execution. -/
theorem concurrency_requests_exactly_two :
    allRepoCommands.filter
        (fun c => requestsBackground c || requestsThreads c) =
      [dockerRunDetachedCmd, fasterqCmd] := by
  decide

/-- C4 counterexample: the run cell's `sleep 3 && docker ps` chain is an
exit-code test — whether `docker ps` runs depends on the exit code of
`sleep 3` — contradicting the claim that no exit-code test exists in any
cell. -/
theorem sleep_chain_is_exit_code_test :
    sleepPsChain ∈ cellShellCmds runSimpleCell ∧
    evalCmd
        (fun w => if w == [[ShTok.lit "sleep"], [ShTok.lit "3"]] then 1 else 0)
        sleepPsChain =
      (1, [ShCmd.simple [[ShTok.lit "sleep"], [ShTok.lit "3"]]]) ∧
    evalCmd (fun _ => 0) sleepPsChain =
      (0, [ShCmd.simple [[ShTok.lit "sleep"], [ShTok.lit "3"]],
           ShCmd.simple [[ShTok.lit "docker"], [ShTok.lit "ps"]]]) := by
  decide

/-- C4 amended: no failure is caught or handled anywhere — no cell
contains try/except, the script never sets `-e`, no `||` fallback exists,
and the only Python branch conditions are a path-existence check and a
record-index bound (neither inspects an exit code or exception); the one
exit-code-sensitive construct is the `sleep 3 && docker ps` chain, which
skips `docker ps` when `sleep` fails but catches and handles nothing. -/
theorem failures_uncaught_amended :
    notebookCells.all (fun c => !cellHasTry c) = true ∧
    ShLine.setOpt "-e" ∉ sratest_sh ∧
    allRepoCommands.all (fun c => !cmdHasOrElse c) = true ∧
    allRepoCommands.filter cmdHasChain = [sleepPsChain] ∧
    allIfConds = [downloadIfCond, inspectIfCond] := by
  refine ⟨by decide, by decide, by decide, by decide, rfl⟩

/-- C6: every docker build/run command is captured as an event (7 of 7);
the builds tag `simple_server`, `myncbi/sra-tools`, `myownncbi/sra-tools`
and each run consumes the tag of the preceding build of the same
repository, either the identical string or with Docker's implicit
`:latest` appended, so build and run always denote the same image and no
transformation is applied in between. -/
theorem docker_build_run_tags_consistent :
    ((allRepoCommands.flatMap cmdSimpleWords).filter isDockerBuildOrRun).length = 7 ∧
    dockerEvents =
      [DockerEvent.build "simple_server", DockerEvent.run "simple_server",
       DockerEvent.build "myncbi/sra-tools",
       DockerEvent.run "myncbi/sra-tools:latest",
       DockerEvent.run "myncbi/sra-tools:latest",
       DockerEvent.build "myownncbi/sra-tools",
       DockerEvent.run "myownncbi/sra-tools:latest"] ∧
    buildRunPairs =
      [("simple_server", "simple_server"),
       ("myncbi/sra-tools", "myncbi/sra-tools:latest"),
       ("myncbi/sra-tools", "myncbi/sra-tools:latest"),
       ("myownncbi/sra-tools", "myownncbi/sra-tools:latest")] ∧
    buildRunPairs.all (fun p => normalizeRef p.1 == normalizeRef p.2 &&
      (p.2 == p.1 || p.2 == p.1 ++ ":latest")) = true := by
  refine ⟨by decide, by decide, by decide, by decide⟩

/-- C7 counterexample: the S3 download step is not a single branch-free
call — it contains a for loop and an if statement, and the branch
condition is the `not os.path.exists(p)` validation the claim says does
not exist. -/
theorem download_step_has_branching_and_loop :
    cellHasIf s3DownloadCell = true ∧
    cellHasFor s3DownloadCell = true ∧
    notebookCells.any (fun c => c.name == "s3-download" && cellHasIf c) = true ∧
    (allStmts s3DownloadCell.stmts).flatMap stmtIfCond = [downloadIfCond] := by
  refine ⟨by decide, by decide, by decide, rfl⟩

/-- C7 amended: the notebook's steps carry no retry logic (no try/except
and no while loop anywhere), and every cell is branch-free except exactly
two — the S3 download cell (path-existence validation) and the fastq
inspection cell (first-ten print limit). -/
theorem steps_branch_free_except_two_cells :
    (notebookCells.filter cellHasIf).map Cell.name =
      ["s3-download", "fastq-inspect"] ∧
    notebookCells.all (fun c => !cellHasTry c && !cellHasWhile c) = true := by
  refine ⟨by decide, by decide⟩
